import Mathlib

/-!
# Credit-metered generation gateway: shallow embedding

Shallow embedding of the credit-ledger backend of the Banner-Creator-Outdoors
repository: the Firestore-backed user store, the `getOrCreateUser` bootstrap,
the deduct/refund credit transactions, the PayPal capture grant, and the
metered generate-background gateway (reserve → invoke provider → compensate).

The store is modelled as an association list keyed by email (one Firestore
document per email).  Firestore's `runTransaction` gives serializable
per-document transactions, so a concurrent execution of the transaction
bodies is equivalent to some serial order; transactions are therefore
modelled as atomic functions on the store, and a set of concurrent calls as
a serial iteration.  Error propagation (JS `throw` / `catch`) is modelled
with `Except String`, carrying the thrown `Error` message, because the
handlers' catch blocks branch on that message text.
-/

set_option autoImplicit false

namespace Banner

/-- A user document in the `users` collection
(`{ email, credits, isPro, createdAt }` as written by `getOrCreateUser`).
Credits are modelled as `Int`: the JS number is unconstrained, and the
non-negativity of the balance is exactly what the invariant claims assert. -/
structure Account where
  email : String
  credits : Int
  isPro : Bool
  createdAt : Nat
  deriving Repr, DecidableEq

/-- The `users` collection: an email-keyed association list of documents. -/
abbrev DB := List (String × Account)

/-- Reading document `email` (Firestore `doc(email).get()`): first binding
for the key. -/
def DB.get : DB → String → Option Account
  | [], _ => none
  | (k, a) :: rest, email => if k = email then some a else DB.get rest email

/-- Writing document `email` (Firestore `set`/`update`): replace the binding
if present, append it otherwise. -/
def DB.set : DB → String → Account → DB
  | [], email, a => [(email, a)]
  | (k, b) :: rest, email, a =>
      if k = email then (k, a) :: rest else (k, b) :: DB.set rest email a

/-- Number of documents stored under a given email. -/
def DB.countKey : DB → String → Nat
  | [], _ => 0
  | (k, _) :: rest, email => (if k = email then 1 else 0) + DB.countKey rest email

/-- The ledger invariant: every stored document has a non-negative balance. -/
def DB.nonneg (db : DB) : Prop :=
  ∀ p ∈ db, 0 ≤ p.2.credits

/-- JS `haystack.includes(needle)` on strings (case-sensitive substring). -/
def strIncludes (s sub : String) : Bool :=
  decide (List.IsInfix sub.data s.data)

/-- Model of `getOrCreateUser` (functions/src/index.ts): read the document; if absent,
create it with 5 free credits and `isPro = false`, and return the new record;
otherwise return the stored data.  `now` stands for the server timestamp. -/
def getOrCreateUser (db : DB) (email : String) (now : Nat) : Account × DB :=
  match DB.get db email with
  | some a => (a, db)
  | none =>
      let newUser : Account :=
        { email := email, credits := 5, isPro := false, createdAt := now }
      (newUser, DB.set db email newUser)

/-- Body of the deduct-credit transaction (`handleDeductCredit` and the
generate-background handlers): amount is hardcoded to 1 server-side; throws
`"User not found"` if the document is absent, `"Insufficient credits"` if
`credits < 1`, otherwise writes `credits - 1` and yields the new balance. -/
def deductCreditTx (db : DB) (email : String) : Except String (Int × DB) :=
  let amount : Int := 1
  match DB.get db email with
  | none => .error "User not found"
  | some data =>
      if data.credits < amount then .error "Insufficient credits"
      else
        let newCredits := data.credits - amount
        .ok (newCredits, DB.set db email { data with credits := newCredits })

/-- Body of the refund-credit transaction (`handleRefundCredit`): amount is
hardcoded to 1 server-side; throws `"User not found"` if the document is
absent, otherwise writes `credits + 1` and yields the new balance. -/
def refundCreditTx (db : DB) (email : String) : Except String (Int × DB) :=
  let amount : Int := 1
  match DB.get db email with
  | none => .error "User not found"
  | some data =>
      let newCredits := data.credits + amount
      .ok (newCredits, DB.set db email { data with credits := newCredits })

/-- An HTTP response as produced by the handlers: a status code and the
fields of the various JSON bodies (`{credits}`, `{imageUrl, credits}`,
`{message}`, `{success}`), absent fields being `none`. -/
structure HttpResponse where
  status : Nat
  credits : Option Int := none
  imageUrl : Option String := none
  message : Option String := none
  success : Option Bool := none
  deriving Repr, DecidableEq

/-- Body of a POST to `/api/refund-credit`: the server reads only `email`;
a client may also send an `amount` field (the frontend does), which the
handler never reads. -/
structure RefundRequestBody where
  email : String
  amount : Option Int := none

/-- Handler `handleRefundCredit`: a falsy (empty) `email` is rejected with
400 `"Email is required"` before anything runs; otherwise it runs the
refund transaction — 200 with the new balance on success, 500 with the
error message otherwise.  The hardcoded `const amount = 1` makes the
request body's `amount` irrelevant. -/
def handleRefundCredit (db : DB) (body : RefundRequestBody) : HttpResponse × DB :=
  if body.email = "" then
    ({ status := 400, message := some "Email is required" }, db)
  else
    match refundCreditTx db body.email with
    | .ok (newCredits, db2) => ({ status := 200, credits := some newCredits }, db2)
    | .error msg => ({ status := 500, message := some msg }, db)

/-- Handler `handleDeductCredit`: a falsy (empty) `email` is rejected with
400 `"Email is required"` before anything runs; otherwise it runs the
deduct transaction — 200 with the new balance on success; on error, 403
when the message is `"Insufficient credits"`, 500 otherwise. -/
def handleDeductCredit (db : DB) (email : String) : HttpResponse × DB :=
  if email = "" then
    ({ status := 400, message := some "Email is required" }, db)
  else
    match deductCreditTx db email with
    | .ok (newCredits, db2) => ({ status := 200, credits := some newCredits }, db2)
    | .error msg =>
        ({ status := if msg = "Insufficient credits" then 403 else 500,
           message := some msg }, db)

/-- Handler `handleCapturePayPalOrder`, from the point where the processor's capture
response `captureData` is back: if `captureData.status === 'COMPLETED'`, a
transaction adds 100 credits and sets `isPro := true` when the document
exists (and silently does nothing when it does not), then 200
`{success: true}`; any other capture status answers 400 `{success: false}`
and touches no state.  (`(data.credits || 0) + 100` agrees with
`credits + 100` on every integer balance, `0` included.) -/
def capturePayPalOrder (db : DB) (email captureStatus : String) : HttpResponse × DB :=
  if captureStatus = "COMPLETED" then
    let db2 :=
      match DB.get db email with
      | none => db
      | some data =>
          DB.set db email { data with credits := data.credits + 100, isPro := true }
    ({ status := 200, success := some true }, db2)
  else
    ({ status := 400, success := some false }, db)

/-- One `inlineData` payload inside a provider response part. -/
structure InlinePayload where
  mimeType : String
  data : String
  deriving Repr, DecidableEq

/-- One part of `response.candidates[0].content.parts`. -/
structure Part where
  inlineData : Option InlinePayload
  deriving Repr, DecidableEq

/-- A provider invocation outcome: either the call throws (an error, a
timeout, ...) with some message, or it returns a response whose extractable
parts are listed (a response with no candidates/content/parts is the empty
list, which the extraction loop treats the same way). -/
abbrev ProviderOutcome := Except String (List Part)

/-- The image-extraction loop: first part carrying `inlineData`, rendered as
a data URL. -/
def extractImageUrl : List Part → Option String
  | [] => none
  | p :: rest =>
      match p.inlineData with
      | some d => some ("data:" ++ d.mimeType ++ ";base64," ++ d.data)
      | none => extractImageUrl rest

/-- The refund-eligibility test of the catch block in
`functions/src/index.ts`:
`error.message?.includes("AI") || error.message?.includes("GoogleGenAI")`. -/
def refundEligible (msg : String) : Bool :=
  strIncludes msg "AI" || strIncludes msg "GoogleGenAI"

/-- Model of `userRef.update({ credits: increment(1) })`: add one credit when the
document exists; an update of a missing document fails, which the caller's
try/catch swallows, so the store is then unchanged. -/
def DB.incrementCredits (db : DB) (email : String) : DB :=
  match DB.get db email with
  | none => db
  | some a => DB.set db email { a with credits := a.credits + 1 }

/-- The catch block of `/api/generate-background`: when the caught message
is refund-eligible, attempt the one-credit refund (`refundOk = false` means
that mutation itself fails; the failure is only logged); then answer 403 for
`"Insufficient credits"` and 500 for everything else, with the original
message as the body. -/
def generateCatch (db : DB) (email msg : String) (refundOk : Bool) :
    HttpResponse × DB :=
  let db2 :=
    if refundEligible msg then
      if refundOk then DB.incrementCredits db email else db
    else db
  ({ status := if msg = "Insufficient credits" then 403 else 500,
     message := some msg }, db2)

/-- The `/api/generate-background` handler of `functions/src/index.ts`.
Inputs beyond the store: the request body (`theme`, `email`), whether
`API_KEY` is configured, the outcome of the (at most one) provider call, and
whether a compensating refund mutation would succeed.  Returns the HTTP
response, the final store, and how many times the provider was invoked.
Flow: validate → deduct one credit in a transaction → call the provider →
extract the image (throwing `"AI returned no image"` when none) → answer 200
with the image and the fresh balance; every throw lands in `generateCatch`. -/
def generateBackground (db : DB) (email theme : String) (apiKey : Option String)
    (provider : ProviderOutcome) (refundOk : Bool) :
    HttpResponse × DB × Nat :=
  if theme = "" ∨ email = "" then
    ({ status := 400, message := some "Theme and Email are required" }, db, 0)
  else
    match apiKey with
    | none =>
        ({ status := 500,
           message := some "Server misconfiguration: API Key missing" }, db, 0)
    | some _ =>
        match deductCreditTx db email with
        | .error msg =>
            let (resp, db2) := generateCatch db email msg refundOk
            (resp, db2, 0)
        | .ok (_, db1) =>
            match provider with
            | .error msg =>
                let (resp, db2) := generateCatch db1 email msg refundOk
                (resp, db2, 1)
            | .ok parts =>
                match extractImageUrl parts with
                | none =>
                    let (resp, db2) :=
                      generateCatch db1 email "AI returned no image" refundOk
                    (resp, db2, 1)
                | some url =>
                    let currentCredits :=
                      match DB.get db1 email with
                      | some a => a.credits
                      | none => 0
                    ({ status := 200, imageUrl := some url,
                       credits := some currentCredits }, db1, 1)

/-- A serial schedule of `n` deduct-credit transactions against one email
(Firestore transactions are serializable, so any concurrent execution of
identical `deductCreditTx` bodies is equivalent to this iteration).  Returns
(number of successes, number of `"Insufficient credits"` failures, final
store). -/
def runDeducts : Nat → DB → String → Nat × Nat × DB
  | 0, db, _ => (0, 0, db)
  | n + 1, db, email =>
      match deductCreditTx db email with
      | .ok (_, db2) =>
          let r := runDeducts n db2 email
          (r.1 + 1, r.2.1, r.2.2)
      | .error msg =>
          let r := runDeducts n db email
          (r.1, r.2.1 + (if msg = "Insufficient credits" then 1 else 0), r.2.2)

/-! ## Store lemmas -/

theorem DB.get_set_self (db : DB) (e : String) (a : Account) :
    DB.get (DB.set db e a) e = some a := by
  induction db with
  | nil => simp [DB.set, DB.get]
  | cons p rest ih =>
      obtain ⟨k, b⟩ := p
      by_cases h : k = e <;> simp [DB.set, DB.get, h, ih]

theorem DB.get_set_ne (db : DB) (e e' : String) (a : Account) (h : e' ≠ e) :
    DB.get (DB.set db e a) e' = DB.get db e' := by
  have hne : ¬ e = e' := fun hh => h hh.symm
  induction db with
  | nil => simp [DB.set, DB.get, hne]
  | cons p rest ih =>
      obtain ⟨k, b⟩ := p
      by_cases hk : k = e
      · subst hk
        simp [DB.set, DB.get, hne]
      · simp [DB.set, DB.get, hk, ih]

theorem DB.mem_of_get (db : DB) (e : String) (a : Account)
    (h : DB.get db e = some a) : (e, a) ∈ db := by
  induction db with
  | nil => simp [DB.get] at h
  | cons p rest ih =>
      obtain ⟨k, b⟩ := p
      by_cases hk : k = e
      · subst hk
        simp [DB.get] at h
        subst h
        exact List.mem_cons_self _ _
      · simp [DB.get, hk] at h
        exact List.mem_cons_of_mem _ (ih h)

theorem DB.nonneg_set (db : DB) (e : String) (a : Account)
    (hdb : DB.nonneg db) (ha : 0 ≤ a.credits) : DB.nonneg (DB.set db e a) := by
  induction db with
  | nil =>
      intro p hp
      simp [DB.set] at hp
      simp [hp, ha]
  | cons q rest ih =>
      obtain ⟨k, b⟩ := q
      have hb : 0 ≤ b.credits := hdb (k, b) (List.mem_cons_self _ _)
      have hrest : DB.nonneg rest := fun p hp => hdb p (List.mem_cons_of_mem _ hp)
      by_cases hk : k = e
      · intro p hp
        simp [DB.set, hk] at hp
        rcases hp with hp | hp
        · simp [hp, ha]
        · exact hrest p hp
      · intro p hp
        simp [DB.set, hk] at hp
        rcases hp with hp | hp
        · simp [hp, hb]
        · exact ih hrest p hp

theorem DB.get_none_of_countKey_zero (db : DB) (e : String)
    (h : DB.countKey db e = 0) : DB.get db e = none := by
  induction db with
  | nil => simp [DB.get]
  | cons p rest ih =>
      obtain ⟨k, b⟩ := p
      by_cases hk : k = e
      · simp [DB.countKey, hk] at h
      · simp [DB.countKey, hk] at h
        simp [DB.get, hk, ih h]

theorem DB.countKey_set_of_get_none (db : DB) (e : String) (a : Account)
    (h : DB.get db e = none) :
    DB.countKey (DB.set db e a) e = DB.countKey db e + 1 := by
  induction db with
  | nil => simp [DB.set, DB.countKey]
  | cons p rest ih =>
      obtain ⟨k, b⟩ := p
      by_cases hk : k = e
      · simp [DB.get, hk] at h
      · simp [DB.get, hk] at h
        simp [DB.set, DB.countKey, hk, ih h]

/-- Unfolding the deduct transaction on an account with enough credits. -/
theorem deduct_ok_of_get (db : DB) (email : String) (a : Account)
    (hget : DB.get db email = some a) (hcr : 1 ≤ a.credits) :
    deductCreditTx db email =
      .ok (a.credits - 1,
        DB.set db email
          { email := a.email, credits := a.credits - 1, isPro := a.isPro,
            createdAt := a.createdAt }) := by
  have hnlt : ¬ a.credits < 1 := not_lt.mpr hcr
  simp [deductCreditTx, hget, hnlt]

/-! ## Claim theorems -/

/-- C3: the 1-credit reservation transaction fails with `"User not found"`
when no account exists for the email, fails with `"Insufficient credits"`
when the account's credits are below 1, and otherwise decrements the
balance by 1 and returns the new balance `credits - 1`, writing back the
account with every other field (`email`, `isPro`, `createdAt`) unchanged. -/
theorem deductCreditTx_spec (db : DB) (email : String) :
    (DB.get db email = none →
      deductCreditTx db email = .error "User not found") ∧
    (∀ a : Account, DB.get db email = some a → a.credits < 1 →
      deductCreditTx db email = .error "Insufficient credits") ∧
    (∀ a : Account, DB.get db email = some a → 1 ≤ a.credits →
      deductCreditTx db email =
        .ok (a.credits - 1,
          DB.set db email
            { email := a.email, credits := a.credits - 1, isPro := a.isPro,
              createdAt := a.createdAt })) := by
  refine ⟨?_, ?_, ?_⟩
  · intro h
    simp [deductCreditTx, h]
  · intro a ha hlt
    simp [deductCreditTx, ha, hlt]
  · intro a ha hge
    exact deduct_ok_of_get db email a ha hge

/-- Witness for C3 at a concrete store: an account holding 5 credits is
debited to 4, all other fields intact. -/
theorem deductCreditTx_spec_witness :
    deductCreditTx [("a@x.com", ⟨"a@x.com", 5, false, 0⟩)] "a@x.com" =
      .ok ((5 : Int) - 1,
        DB.set [("a@x.com", ⟨"a@x.com", 5, false, 0⟩)] "a@x.com"
          ⟨"a@x.com", (5 : Int) - 1, false, 0⟩) :=
  (deductCreditTx_spec [("a@x.com", ⟨"a@x.com", 5, false, 0⟩)] "a@x.com").2.2
    ⟨"a@x.com", 5, false, 0⟩ (by decide) (by decide)

/-- C9: past the handler's own falsy-email guard (`email ≠ ""`), a
refund-credit request against an existing account always increments the
balance by exactly 1 and answers 200 with the new balance, whatever
`amount` the client put in the body (the server hardcodes 1) and with no
precondition that a deduction preceded it; it fails (500,
`"User not found"`) exactly when no account exists for the email. -/
theorem handleRefundCredit_spec (db : DB) (email : String)
    (clientAmount : Option Int) (hemail : email ≠ "") :
    (∀ a : Account, DB.get db email = some a →
      handleRefundCredit db { email := email, amount := clientAmount } =
        ({ status := 200, credits := some (a.credits + 1) },
          DB.set db email
            { email := a.email, credits := a.credits + 1, isPro := a.isPro,
              createdAt := a.createdAt })) ∧
    (DB.get db email = none →
      handleRefundCredit db { email := email, amount := clientAmount } =
        ({ status := 500, message := some "User not found" }, db)) := by
  constructor
  · intro a ha
    simp [handleRefundCredit, refundCreditTx, hemail, ha]
  · intro h
    simp [handleRefundCredit, refundCreditTx, hemail, h]

/-- Witness for C9: refunding an account sitting at 0 credits (nothing was
deducted beforehand) yields balance 1, independently of a client-sent
`amount := 50`. -/
theorem handleRefundCredit_spec_witness :
    handleRefundCredit [("a@x.com", ⟨"a@x.com", 0, false, 0⟩)]
        { email := "a@x.com", amount := some 50 } =
      ({ status := 200, credits := some ((0 : Int) + 1) },
        DB.set [("a@x.com", ⟨"a@x.com", 0, false, 0⟩)] "a@x.com"
          ⟨"a@x.com", (0 : Int) + 1, false, 0⟩) :=
  (handleRefundCredit_spec [("a@x.com", ⟨"a@x.com", 0, false, 0⟩)] "a@x.com"
    (some 50) (by decide)).1 ⟨"a@x.com", 0, false, 0⟩ (by decide)

/-- C8: a capture reported `COMPLETED` for an email whose account exists
adds exactly 100 credits and sets `isPro := true` (in the single
transactional write), answering `{success: true}`; a capture whose status
is anything else answers 400 `{success: false}` and changes no state. -/
theorem capturePayPalOrder_grant (db : DB) (email : String) (a : Account)
    (hget : DB.get db email = some a) :
    capturePayPalOrder db email "COMPLETED" =
      ({ status := 200, success := some true },
        DB.set db email
          { email := a.email, credits := a.credits + 100, isPro := true,
            createdAt := a.createdAt }) ∧
    (∀ st : String, st ≠ "COMPLETED" →
      capturePayPalOrder db email st =
        ({ status := 400, success := some false }, db)) := by
  constructor
  · simp [capturePayPalOrder, hget]
  · intro st hst
    simp [capturePayPalOrder, hst]

/-- Witness for C8: the spec's example — starting balance 3 becomes 103
with `isPro = true` after a `COMPLETED` capture. -/
theorem capturePayPalOrder_grant_witness :
    capturePayPalOrder [("a@x.com", ⟨"a@x.com", 3, false, 7⟩)] "a@x.com"
        "COMPLETED" =
      ({ status := 200, success := some true },
        DB.set [("a@x.com", ⟨"a@x.com", 3, false, 7⟩)] "a@x.com"
          ⟨"a@x.com", (3 : Int) + 100, true, 7⟩) :=
  (capturePayPalOrder_grant [("a@x.com", ⟨"a@x.com", 3, false, 7⟩)] "a@x.com"
    ⟨"a@x.com", 3, false, 7⟩ (by decide)).1

/-- C10: a `COMPLETED` capture for an email with no stored account still
answers `{success: true}` (HTTP 200) while changing no stored state — the
transaction body silently skips the grant instead of failing. -/
theorem capturePayPalOrder_missing_account (db : DB) (email : String)
    (h : DB.get db email = none) :
    capturePayPalOrder db email "COMPLETED" =
      ({ status := 200, success := some true }, db) := by
  simp [capturePayPalOrder, h]

/-- Witness for C10: capture against an empty store succeeds and stores
nothing. -/
theorem capturePayPalOrder_missing_account_witness :
    capturePayPalOrder [] "ghost@x.com" "COMPLETED" =
      ({ status := 200, success := some true }, []) :=
  capturePayPalOrder_missing_account [] "ghost@x.com" (by decide)

/-- C7: the bootstrap is idempotent at the public interface.  For an email
with no stored document, the first `getOrCreateUser` call returns the fresh
account `credits = 5, isPro = false` and stores exactly one document for
that email; a second call returns that record and leaves the store
identical; and in general, whenever a document already exists, the call
returns it with its current field values and writes nothing. -/
theorem getOrCreateUser_idempotent (db : DB) (email : String) (now now2 : Nat)
    (h0 : DB.countKey db email = 0) :
    (getOrCreateUser db email now).1 =
      { email := email, credits := 5, isPro := false, createdAt := now } ∧
    DB.countKey (getOrCreateUser db email now).2 email = 1 ∧
    getOrCreateUser (getOrCreateUser db email now).2 email now2 =
      ({ email := email, credits := 5, isPro := false, createdAt := now },
        (getOrCreateUser db email now).2) ∧
    (∀ (db2 : DB) (a : Account), DB.get db2 email = some a →
      getOrCreateUser db2 email now2 = (a, db2)) := by
  have hnone : DB.get db email = none := DB.get_none_of_countKey_zero db email h0
  refine ⟨?_, ?_, ?_, ?_⟩
  · simp [getOrCreateUser, hnone]
  · simp [getOrCreateUser, hnone]
    rw [DB.countKey_set_of_get_none db email _ hnone, h0]
  · have hset := DB.get_set_self db email
      { email := email, credits := 5, isPro := false, createdAt := now }
    simp [getOrCreateUser, hnone, hset]
  · intro db2 a ha
    simp [getOrCreateUser, ha]

/-- Witness for C7: bootstrapping `a@x.com` on the empty store. -/
theorem getOrCreateUser_idempotent_witness :
    (getOrCreateUser [] "a@x.com" 3).1 =
      { email := "a@x.com", credits := 5, isPro := false, createdAt := 3 } ∧
    DB.countKey (getOrCreateUser [] "a@x.com" 3).2 "a@x.com" = 1 ∧
    getOrCreateUser (getOrCreateUser [] "a@x.com" 3).2 "a@x.com" 9 =
      ({ email := "a@x.com", credits := 5, isPro := false, createdAt := 3 },
        (getOrCreateUser [] "a@x.com" 3).2) := by
  have h := getOrCreateUser_idempotent [] "a@x.com" 3 9 (by decide)
  exact ⟨h.1, h.2.1, h.2.2.1⟩

/-- C5: every ledger operation preserves `credits >= 0` on every stored
account — bootstrap, credit deduction, credit refund, and the payment
grant; and a reservation that would drive the balance negative is rejected
with the `"Insufficient credits"` error rather than clamped to zero. -/
theorem ledger_preserves_nonneg (db : DB) (email : String) (now : Nat)
    (hdb : DB.nonneg db) :
    DB.nonneg (getOrCreateUser db email now).2 ∧
    (∀ (n : Int) (db2 : DB), deductCreditTx db email = .ok (n, db2) →
      DB.nonneg db2) ∧
    (∀ (n : Int) (db2 : DB), refundCreditTx db email = .ok (n, db2) →
      DB.nonneg db2) ∧
    (∀ st : String, DB.nonneg (capturePayPalOrder db email st).2) ∧
    (∀ a : Account, DB.get db email = some a → a.credits < 1 →
      deductCreditTx db email = .error "Insufficient credits") := by
  refine ⟨?_, ?_, ?_, ?_, ?_⟩
  · unfold getOrCreateUser
    cases hg : DB.get db email with
    | some a => simpa using hdb
    | none =>
        simp only []
        exact DB.nonneg_set db email _ hdb (by norm_num)
  · intro n db2 h
    unfold deductCreditTx at h
    cases hg : DB.get db email with
    | none => simp [hg] at h
    | some a =>
        rw [hg] at h
        by_cases hlt : a.credits < (1 : Int)
        · simp [hlt] at h
        · simp [hlt] at h
          rw [← h.2]
          exact DB.nonneg_set db email _ hdb (by simp; omega)
  · intro n db2 h
    unfold refundCreditTx at h
    cases hg : DB.get db email with
    | none => simp [hg] at h
    | some a =>
        rw [hg] at h
        simp at h
        have ha : 0 ≤ a.credits := hdb (email, a) (DB.mem_of_get db email a hg)
        rw [← h.2]
        exact DB.nonneg_set db email _ hdb (by simp; omega)
  · intro st
    unfold capturePayPalOrder
    by_cases hst : st = "COMPLETED"
    · cases hg : DB.get db email with
      | none => simpa [hst, hg] using hdb
      | some a =>
          have ha : 0 ≤ a.credits := hdb (email, a) (DB.mem_of_get db email a hg)
          simp only [hst, if_pos rfl, hg]
          exact DB.nonneg_set db email _ hdb (by simp; omega)
    · simpa [hst] using hdb
  · intro a ha hlt
    simp [deductCreditTx, ha, hlt]

/-- Witness for C5: from a store holding a 0-credit account, the refund and
grant paths keep the balance non-negative and the deduction is rejected. -/
theorem ledger_preserves_nonneg_witness :
    DB.nonneg (getOrCreateUser [("a@x.com", ⟨"a@x.com", 0, false, 0⟩)]
      "a@x.com" 0).2 ∧
    deductCreditTx [("a@x.com", ⟨"a@x.com", 0, false, 0⟩)] "a@x.com" =
      .error "Insufficient credits" := by
  have h := ledger_preserves_nonneg [("a@x.com", ⟨"a@x.com", 0, false, 0⟩)]
    "a@x.com" 0 (by unfold DB.nonneg; decide)
  exact ⟨h.1, h.2.2.2.2 ⟨"a@x.com", 0, false, 0⟩ (by decide) (by decide)⟩

/-- The deduct transaction can only throw its two hard-coded messages. -/
theorem deductCreditTx_error_cases (db : DB) (email msg : String)
    (h : deductCreditTx db email = .error msg) :
    msg = "User not found" ∨ msg = "Insufficient credits" := by
  unfold deductCreditTx at h
  cases hg : DB.get db email with
  | none =>
      rw [hg] at h
      simp at h
      exact .inl h.symm
  | some a =>
      rw [hg] at h
      by_cases hlt : a.credits < (1 : Int)
      · simp [hlt] at h
        exact .inr h.symm
      · simp [hlt] at h

/-- Neither reservation-failure message passes the substring test of the
refund branch. -/
theorem deduct_errors_not_refund_eligible :
    refundEligible "User not found" = false ∧
    refundEligible "Insufficient credits" = false := by
  constructor <;> decide

/-- C2: when the credit reservation fails (account missing or insufficient
credits), the provider is never invoked — the handler's provider call count
is 0 — and the error is returned immediately (403 for insufficient credits,
500 otherwise) with the store untouched. -/
theorem generateBackground_no_call_without_reservation
    (db : DB) (email theme apiKey msg : String) (provider : ProviderOutcome)
    (refundOk : Bool) (htheme : theme ≠ "") (hemail : email ≠ "")
    (h : deductCreditTx db email = .error msg) :
    generateBackground db email theme (some apiKey) provider refundOk =
      ({ status := if msg = "Insufficient credits" then 403 else 500,
         message := some msg }, db, 0) := by
  have helig : refundEligible msg = false := by
    rcases deductCreditTx_error_cases db email msg h with h1 | h1 <;>
      rw [h1] <;> decide
  simp [generateBackground, htheme, hemail, h, generateCatch, helig]

/-- Witness for C2: with a zero-credit account the handler answers 403
`"Insufficient credits"`, performs zero provider calls, and leaves the
store as it was — even though the supplied provider outcome was a success. -/
theorem generateBackground_no_call_without_reservation_witness :
    generateBackground [("a@x.com", ⟨"a@x.com", 0, false, 0⟩)] "a@x.com"
        "forest" (some "key") (.ok [⟨some ⟨"image/png", "Zm9v"⟩⟩]) true =
      ({ status := 403, message := some "Insufficient credits" },
        [("a@x.com", ⟨"a@x.com", 0, false, 0⟩)], 0) := by
  have h := generateBackground_no_call_without_reservation
    [("a@x.com", ⟨"a@x.com", 0, false, 0⟩)] "a@x.com" "forest" "key"
    "Insufficient credits" (.ok [⟨some ⟨"image/png", "Zm9v"⟩⟩]) true
    (by decide) (by decide) (by rfl)
  simpa using h

/-- C4: after a successful reservation, if the provider call throws, the
response the caller sees is computed from the original provider error alone
— the same status (403 only for the `"Insufficient credits"` text, 500
otherwise) and the same message whether the compensating refund mutation
succeeds or fails; the refund failure is swallowed and never replaces the
surfaced error. -/
theorem generateBackground_refund_failure_isolation
    (db db1 : DB) (email theme apiKey msg : String) (n : Int)
    (htheme : theme ≠ "") (hemail : email ≠ "")
    (hded : deductCreditTx db email = .ok (n, db1)) :
    ∀ refundOk : Bool,
      (generateBackground db email theme (some apiKey) (.error msg)
          refundOk).1 =
        { status := if msg = "Insufficient credits" then 403 else 500,
          message := some msg } := by
  intro refundOk
  simp [generateBackground, htheme, hemail, hded, generateCatch]

/-- Witness for C4: a provider failure `"GoogleGenAI error"` with the refund
mutation failing still surfaces status 500 and the provider's own message. -/
theorem generateBackground_refund_failure_isolation_witness :
    (generateBackground [("a@x.com", ⟨"a@x.com", 5, false, 0⟩)] "a@x.com"
        "forest" (some "key") (.error "GoogleGenAI error") false).1 =
      { status := 500, message := some "GoogleGenAI error" } := by
  have h := generateBackground_refund_failure_isolation
    [("a@x.com", ⟨"a@x.com", 5, false, 0⟩)]
    [("a@x.com", ⟨"a@x.com", 4, false, 0⟩)] "a@x.com" "forest" "key"
    "GoogleGenAI error" 4 (by decide) (by decide) (by rfl) false
  simpa using h

/-- Debiting one credit and then crediting one back through the refund
update restores the original account record. -/
theorem refund_roundtrip (db : DB) (email : String) (a : Account)
    (hcr : 1 ≤ a.credits) :
    DB.get (DB.incrementCredits
      (DB.set db email
        { email := a.email, credits := a.credits - 1, isPro := a.isPro,
          createdAt := a.createdAt }) email) email = some a := by
  have h1 := DB.get_set_self db email
    { email := a.email, credits := a.credits - 1, isPro := a.isPro,
      createdAt := a.createdAt }
  unfold DB.incrementCredits
  rw [h1, DB.get_set_self]
  cases a with
  | mk ae ac ap act => simp

/-- C1 counterexample: a reservation that succeeds (balance 5 → 4) followed
by a provider failure raising `"timeout"` — a refund-eligible failure under
the claim, with the refund mutation able to succeed — leaves the balance at
4, not the pre-operation 5: the gateway refunds only on messages matching
its substring test, not on every provider failure. -/
theorem generateBackground_timeout_not_refunded :
    deductCreditTx [("a@x.com", ⟨"a@x.com", 5, false, 0⟩)] "a@x.com" =
      .ok (4, [("a@x.com", ⟨"a@x.com", 4, false, 0⟩)]) ∧
    DB.get (generateBackground [("a@x.com", ⟨"a@x.com", 5, false, 0⟩)]
        "a@x.com" "forest" (some "key") (.error "timeout") true).2.1
        "a@x.com" = some ⟨"a@x.com", 4, false, 0⟩ ∧
    (4 : Int) ≠ 5 :=
  ⟨rfl, rfl, by decide⟩

/-- C1 (amended): after a successful reservation, the gateway refunds the
reserved credit exactly when the failure's message passes its substring
test (`includes "AI"` or `includes "GoogleGenAI"`): such provider errors,
and the no-extractable-payload case (whose message is `"AI returned no
image"`), restore the pre-operation balance when the refund mutation
succeeds; a provider failure whose message fails the test leaves the
balance debited; and a reservation failure (insufficient credits or account
not found) never touches the store at all. -/
theorem generateBackground_refund_policy (email theme apiKey : String)
    (htheme : theme ≠ "") (hemail : email ≠ "") :
    (∀ (db : DB) (a : Account) (msg : String),
      DB.get db email = some a → 1 ≤ a.credits → refundEligible msg = true →
      DB.get (generateBackground db email theme (some apiKey) (.error msg)
        true).2.1 email = some a) ∧
    (∀ (db : DB) (a : Account) (parts : List Part),
      DB.get db email = some a → 1 ≤ a.credits →
      extractImageUrl parts = none →
      DB.get (generateBackground db email theme (some apiKey) (.ok parts)
        true).2.1 email = some a) ∧
    (∀ (db : DB) (a : Account) (msg : String),
      DB.get db email = some a → 1 ≤ a.credits → refundEligible msg = false →
      DB.get (generateBackground db email theme (some apiKey) (.error msg)
        true).2.1 email =
        some { email := a.email, credits := a.credits - 1, isPro := a.isPro,
               createdAt := a.createdAt }) ∧
    (∀ (db : DB) (msg : String) (provider : ProviderOutcome)
        (refundOk : Bool),
      deductCreditTx db email = .error msg →
      (generateBackground db email theme (some apiKey) provider
        refundOk).2.1 = db) := by
  refine ⟨?_, ?_, ?_, ?_⟩
  · intro db a msg hget hcr helig
    have hded := deduct_ok_of_get db email a hget hcr
    simp [generateBackground, htheme, hemail, hded, generateCatch, helig]
    exact refund_roundtrip db email a hcr
  · intro db a parts hget hcr hparts
    have hded := deduct_ok_of_get db email a hget hcr
    have helig : refundEligible "AI returned no image" = true := by decide
    simp [generateBackground, htheme, hemail, hded, hparts, generateCatch,
      helig]
    exact refund_roundtrip db email a hcr
  · intro db a msg hget hcr helig
    have hded := deduct_ok_of_get db email a hget hcr
    simp [generateBackground, htheme, hemail, hded, generateCatch, helig]
    exact DB.get_set_self db email _
  · intro db msg provider refundOk h
    have helig : refundEligible msg = false := by
      rcases deductCreditTx_error_cases db email msg h with h1 | h1 <;>
        rw [h1] <;> decide
    simp [generateBackground, htheme, hemail, h, generateCatch, helig]

/-- Witness for the amended C1: a provider error mentioning `"GoogleGenAI"`
against a 5-credit account is refunded back to 5. -/
theorem generateBackground_refund_policy_witness :
    DB.get (generateBackground [("a@x.com", ⟨"a@x.com", 5, false, 0⟩)]
        "a@x.com" "forest" (some "key") (.error "GoogleGenAI: boom")
        true).2.1 "a@x.com" = some ⟨"a@x.com", 5, false, 0⟩ :=
  (generateBackground_refund_policy "a@x.com" "forest" "key" (by decide)
    (by decide)).1 [("a@x.com", ⟨"a@x.com", 5, false, 0⟩)]
    ⟨"a@x.com", 5, false, 0⟩ "GoogleGenAI: boom" (by decide) (by decide)
    (by decide)

/-- Evaluating a serial schedule of `n` one-credit deductions against a
single stored account with balance `cr`: `min n cr` succeed, the remaining
`n - min n cr` all fail with `"Insufficient credits"`, and the final
balance is `cr - min n cr`. -/
theorem runDeducts_singleton (e : String) (isP : Bool) (ts : Nat) :
    ∀ (n cr : Nat),
      runDeducts n [(e, ⟨e, (cr : Int), isP, ts⟩)] e =
        (min n cr, n - min n cr,
          [(e, ⟨e, ((cr - min n cr : Nat) : Int), isP, ts⟩)]) := by
  intro n
  induction n with
  | zero => intro cr; simp [runDeducts]
  | succ n ih =>
      intro cr
      cases cr with
      | zero =>
          have hded : deductCreditTx [(e, ⟨e, (0 : Int), isP, ts⟩)] e =
              .error "Insufficient credits" := by
            simp [deductCreditTx, DB.get]
          have ih0 := ih 0
          simp at ih0
          simp [runDeducts, hded, ih0]
      | succ c =>
          have hded : deductCreditTx [(e, ⟨e, (c : Int) + 1, isP, ts⟩)] e =
              .ok ((c : Int), [(e, ⟨e, (c : Int), isP, ts⟩)]) := by
            have hnlt : ¬ ((c : Int) + 1 < 1) := by omega
            simp [deductCreditTx, DB.get, DB.set, hnlt]
          simp [runDeducts, hded, ih c, Prod.ext_iff]
          refine ⟨by omega, by omega, by omega⟩

/-- C6: under the serializable transaction model, `N` deduct transactions
against one account with starting balance `B < N` yield exactly `B`
successes and `N - B` `"Insufficient credits"` failures and drive the
balance to 0; in particular two reservations against a balance of 1 give
exactly one success and one `"Insufficient credits"` failure. -/
theorem concurrent_deducts_no_double_spend (e : String) (isP : Bool)
    (ts B N : Nat) (hBN : B < N) :
    runDeducts N [(e, ⟨e, (B : Int), isP, ts⟩)] e =
      (B, N - B, [(e, ⟨e, 0, isP, ts⟩)]) ∧
    runDeducts 2 [(e, ⟨e, ((1 : Nat) : Int), isP, ts⟩)] e =
      (1, 1, [(e, ⟨e, 0, isP, ts⟩)]) := by
  constructor
  · have h := runDeducts_singleton e isP ts N B
    have hmin : min N B = B := by omega
    rw [hmin] at h
    simpa using h
  · have h := runDeducts_singleton e isP ts 2 1
    simpa using h

/-- Witness for C6: three deductions against a balance of 2 give two
successes, one rejection, and a final balance of 0. -/
theorem concurrent_deducts_no_double_spend_witness :
    runDeducts 3 [("a@x.com", ⟨"a@x.com", ((2 : Nat) : Int), false, 0⟩)]
        "a@x.com" =
      (2, 1, [("a@x.com", ⟨"a@x.com", 0, false, 0⟩)]) := by
  have h := (concurrent_deducts_no_double_spend "a@x.com" false 0 2 3
    (by decide)).1
  simpa using h

end Banner
